import Mathlib

/-!
Shallow embedding of the GitHub-to-chat notification bridge core
(HereNotThere/github-bot): the branch filter matcher, the event router
(`EventProcessor.processEvent` and its per-event entry points), the
delivery coordinator (`MessageDeliveryService.deliver`) and the entity
mapping store, translated from
`src/github-app/event-processor.ts`, `src/services/message-delivery-service.ts`,
`src/services/thread-service.ts` and `src/handlers/github-subscription-handler.ts`.

Dates are embedded as `Int` epoch milliseconds; the database tables are
association lists keyed by their primary keys; chat-boundary calls are
recorded in a trace of `ChatEffect`s, and a `BotBehavior` record tells
whether each boundary call succeeds or throws (the services catch those
throws, so the embedded operations are total and return the state reached
when the throw is caught).
-/

set_option autoImplicit false

namespace GithubBot

/-! ## Branch filter matcher

`matchesBranchFilter` from `src/github-app/event-processor.ts`, including a
model of the picomatch `isMatch` for patterns built from literal characters,
`*` and `/` (with the globstar segment `**`): `*` matches any run of
characters within one path segment (it does not cross `/`), and a wildcard
does not match a leading `.` of a segment.
-/

/-- One-segment glob matching: `*` matches any (possibly empty) run of
characters of the segment; all other pattern characters are literal.
(Structured as recursion on the pattern: `*` tries every suffix of the
string.) -/
def globSegMatch : List Char → List Char → Bool
  | [], s => s.isEmpty
  | q :: ps, s =>
    if q = '*' then s.tails.any (fun suf => globSegMatch ps suf)
    else
      match s with
      | [] => false
      | c :: cs => (q == c) && globSegMatch ps cs

/-- Segment matching with the picomatch default dot-file rule: a segment
starting with `.` is only matched by a pattern segment that starts with a
literal `.`. -/
def segMatch (p s : List Char) : Bool :=
  match s with
  | sc :: _ =>
    if sc = '.' then
      match p with
      | pc :: _ => if pc = '.' then globSegMatch p s else false
      | [] => false
    else globSegMatch p s
  | [] => globSegMatch p s

/-- `true` iff the segment does not start with a `.` (globstar may only
swallow such segments under the picomatch default dot-file rule). -/
def nonDotSeg (s : List Char) : Bool :=
  match s with
  | c :: _ => !(c = '.' : Bool)
  | [] => true

/-- Glob matching over `/`-separated segments; a pattern segment that is
exactly `**` (globstar) matches any number of segments (none of which may
start with `.`). -/
def globSegsMatch : List (List Char) → List (List Char) → Bool
  | [], ss => ss.isEmpty
  | p :: ptl, ss =>
    if p = ['*', '*'] then
      (List.range (ss.length + 1)).any
        (fun k => (ss.take k).all nonDotSeg && globSegsMatch ptl (ss.drop k))
    else
      match ss with
      | [] => false
      | s :: stl => segMatch p s && globSegsMatch ptl stl

/-- The JavaScript method `String.prototype.split(sep)` on exploded strings:
`splitOnChar ',' "a,b"` is `[['a'], ['b']]`, and the empty string yields
one empty piece, as in JS. -/
def splitOnChar (sep : Char) : List Char → List (List Char)
  | [] => [[]]
  | c :: cs =>
    match splitOnChar sep cs with
    | [] => [[c]]
    | h :: t => if c == sep then [] :: h :: t else (c :: h) :: t

/-- Whitespace for the model of `String.prototype.trim()`. -/
def isJsWhitespace (c : Char) : Bool :=
  c == ' ' || c == '\t' || c == '\n' || c == '\r'

/-- Model of `String.prototype.trim()`: drop whitespace from both ends. -/
def trimChars (s : List Char) : List Char :=
  ((s.dropWhile isJsWhitespace).reverse.dropWhile isJsWhitespace).reverse

/-- Model of the picomatch `isMatch str pattern` for literal-and-`*` patterns:
both strings are split into `/`-separated segments and matched segmentwise. -/
def isMatch (str pattern : List Char) : Bool :=
  globSegsMatch (splitOnChar '/' pattern) (splitOnChar '/' str)

/-- `matchesBranchFilter` (source: `src/github-app/event-processor.ts`):
`null` filter means default branch only, `"all"` matches everything,
otherwise the filter is a comma-separated list of trimmed glob patterns. -/
def matchesBranchFilter (branch : String) (filter : Option String)
    (defaultBranch : String) : Bool :=
  match filter with
  | none => branch == defaultBranch
  | some f =>
    if f == "all" then true
    else
      let patterns := (splitOnChar ',' f.toList).map trimChars
      patterns.any (fun pattern => isMatch branch.toList pattern)

/-- Glob matching as described by the spec wording for claim C5: `*`
wildcard semantics in which `/` is "not treated specially beyond literal
matching", i.e. `*` may match any run of characters, slashes included.
(Second definition for the refinement comparison with `isMatch`.) -/
def specGlobMatch : List Char → List Char → Bool
  | [], s => s.isEmpty
  | q :: ps, s =>
    if q = '*' then s.tails.any (fun suf => specGlobMatch ps suf)
    else
      match s with
      | [] => false
      | c :: cs => (q == c) && specGlobMatch ps cs

/-- The branch-filter predicate exactly as the sentence of claim C5 describes it
(split on commas, trim, exact equality or slash-agnostic glob match). -/
def specMatches (branch : String) (filter : Option String)
    (defaultBranch : String) : Bool :=
  match filter with
  | none => branch == defaultBranch
  | some f =>
    if f == "all" then true
    else
      ((splitOnChar ',' f.toList).map trimChars).any
        (fun t => branch.toList == t || specGlobMatch t branch.toList)

/-! ## Data model of the entity mapping store

From `src/services/message-delivery-service.ts` and the
`message_mappings` table of `drizzle/0000_postgres_init.sql`.
Timestamps are epoch milliseconds (`Int`); the table is an association
list keyed by its five-part primary key. -/

inductive GithubEntityType
  | pr
  | issue
  | comment
  | review
  | review_comment
deriving DecidableEq, Repr

inductive AnchorType
  | pr
  | issue
deriving DecidableEq, Repr

/-- The TS union `"pr" | "issue"` is a subtype of the entity-type union;
`getMessageId` receives a parent type where an entity type is expected. -/
def AnchorType.toEntityType : AnchorType → GithubEntityType
  | .pr => .pr
  | .issue => .issue

inductive DeliveryAction
  | create
  | edit
  | delete
deriving DecidableEq, Repr

/-- Five-part primary key of `message_mappings`. -/
structure MappingKey where
  spaceId : String
  channelId : String
  repoFullName : String
  githubEntityType : GithubEntityType
  githubEntityId : String
deriving DecidableEq, Repr

/-- Non-key columns of a `message_mappings` row. -/
structure MappingRow where
  parentType : Option AnchorType
  parentNumber : Option Int
  townsMessageId : String
  githubUpdatedAt : Option Int
  createdAt : Int
  expiresAt : Int
deriving DecidableEq, Repr

/-- The `message_mappings` table. -/
abbrev Db := List (MappingKey × MappingRow)

/-- Point lookup by the full primary key (`SELECT ... LIMIT 1`). -/
def dbLookup : Db → MappingKey → Option MappingRow
  | [], _ => none
  | e :: tl, k => if e.1 == k then some e.2 else dbLookup tl k

/-- `EntityContext` from `message-delivery-service.ts`. -/
structure EntityContext where
  githubEntityType : GithubEntityType
  githubEntityId : String
  isAnchor : Bool
  parentType : Option AnchorType
  parentNumber : Option Int
  githubUpdatedAt : Option Int
deriving DecidableEq, Repr

/-- `DeliveryParams` from `message-delivery-service.ts`. -/
structure DeliveryParams where
  spaceId : String
  channelId : String
  repoFullName : String
  action : DeliveryAction
  entityContext : Option EntityContext
  formatter : Bool → String

/-- `MESSAGE_MAPPING_EXPIRY_DAYS` from `src/constants.ts`. -/
def MESSAGE_MAPPING_EXPIRY_DAYS : Int := 30

/-- Milliseconds per day; `expiresAt.setDate(getDate() + expiryDays)` is
modelled as adding `expiryDays` fixed-length days. -/
def msPerDay : Int := 86400000

/-- One externally visible call on the chat boundary (`TownsBot`).
An effect is recorded for every attempted call, whether or not the bot
throws on it. -/
inductive ChatEffect
  | send (channelId : String) (message : String) (threadId : Option String)
  | edit (channelId : String) (messageId : String) (message : String)
  | remove (channelId : String) (messageId : String)
deriving DecidableEq, Repr

/-- Outcome model of the `TownsBot` boundary: `sendEventId` returns the
`eventId` of `sendMessage` (`Except.error` models a throw; the empty
string models a falsy `eventId`); `editOk` / `removeOk` tell whether
`editMessage` / `removeEvent` succeed or throw. -/
structure BotBehavior where
  sendEventId : String → String → Option String → Except Unit String
  editOk : String → String → String → Bool
  removeOk : String → String → Bool

/-! ## Entity mapping store operations -/

/-- `getMessageId`: point lookup that ignores rows whose `expiresAt` is not
strictly in the future (`gt(expiresAt, new Date())`). -/
def getMessageId (now : Int) (db : Db) (spaceId channelId repoFullName : String)
    (entityType : GithubEntityType) (entityId : String) : Option String :=
  match dbLookup db ⟨spaceId, channelId, repoFullName, entityType, entityId⟩ with
  | some row => if now < row.expiresAt then some row.townsMessageId else none
  | none => none

/-- Argument record of `storeMapping`. -/
structure StoreParams where
  spaceId : String
  channelId : String
  repoFullName : String
  githubEntityType : GithubEntityType
  githubEntityId : String
  parentType : Option AnchorType
  parentNumber : Option Int
  townsMessageId : String
  githubUpdatedAt : Option Int
deriving DecidableEq, Repr

def StoreParams.key (p : StoreParams) : MappingKey :=
  ⟨p.spaceId, p.channelId, p.repoFullName, p.githubEntityType, p.githubEntityId⟩

/-- Replace-in-place of the row stored under `k` (the conflict branch of
an upsert). -/
def dbUpdate : Db → MappingKey → (MappingRow → MappingRow) → Db
  | [], _, _ => []
  | e :: tl, k, f => (if e.1 == k then (e.1, f e.2) else e) :: dbUpdate tl k f

/-- `storeMapping`: insert, or on primary-key conflict update only
`townsMessageId`, `githubUpdatedAt` and `expiresAt` (the drizzle `set`
clause; an `undefined` `githubUpdatedAt` is dropped from the `set` clause,
leaving the stored value untouched, while an insert stores NULL). -/
def storeMapping (now : Int) (db : Db) (p : StoreParams) (expiryDays : Int) : Db :=
  let expiresAt := now + expiryDays * msPerDay
  match dbLookup db p.key with
  | none =>
    db ++ [(p.key,
      ⟨p.parentType, p.parentNumber, p.townsMessageId, p.githubUpdatedAt, now, expiresAt⟩)]
  | some _ =>
    dbUpdate db p.key (fun r =>
      ⟨r.parentType, r.parentNumber, p.townsMessageId,
        (match p.githubUpdatedAt with
         | some t => some t
         | none => r.githubUpdatedAt),
        r.createdAt, expiresAt⟩)

/-- `shouldUpdate`: stale-update oracle. The lookup has no expiry clause;
a missing row or missing stored timestamp means "update"; otherwise the
incoming timestamp must be strictly newer. -/
def shouldUpdate (db : Db) (k : MappingKey) (newUpdatedAt : Int) : Bool :=
  match dbLookup db k with
  | none => true
  | some row =>
    match row.githubUpdatedAt with
    | none => true
    | some existing => existing < newUpdatedAt

/-- `deleteMapping`: unconditional removal by primary key. -/
def deleteMapping (db : Db) (k : MappingKey) : Db :=
  db.filter (fun e => !(e.1 == k))

/-- `cleanupExpired`: delete every row with `expiresAt < now`, returning
the surviving table and the number of removed rows. -/
def cleanupExpired (now : Int) (db : Db) : Db × Nat :=
  ((db.filter (fun e => !(decide (e.2.expiresAt < now)))),
    (db.filter (fun e => decide (e.2.expiresAt < now))).length)

/-! ## Delivery coordinator (`MessageDeliveryService.deliver`) -/

/-- `handleDelete`: look up the message of the entity; if present, remove it on
the chat boundary and then delete the mapping row. A bot throw is caught
by `deliver`, so the row survives it. -/
def handleDelete (bot : BotBehavior) (now : Int) (db : Db)
    (spaceId channelId repoFullName : String) (ctx : EntityContext) :
    Db × List ChatEffect :=
  match getMessageId now db spaceId channelId repoFullName
      ctx.githubEntityType ctx.githubEntityId with
  | none => (db, [])
  | some mid =>
    if bot.removeOk channelId mid then
      (deleteMapping db
          ⟨spaceId, channelId, repoFullName, ctx.githubEntityType, ctx.githubEntityId⟩,
        [.remove channelId mid])
    else (db, [.remove channelId mid])

/-- `handleCreate`: send, then persist the mapping when an `eventId` came
back and an entity context exists. -/
def handleCreate (bot : BotBehavior) (now : Int) (db : Db)
    (spaceId channelId repoFullName : String) (ctx? : Option EntityContext)
    (threadId : Option String) (message : String) : Db × List ChatEffect :=
  let db2 :=
    match bot.sendEventId channelId message threadId with
    | .error _ => db
    | .ok eventId =>
      if eventId == "" then db
      else
        match ctx? with
        | none => db
        | some ctx =>
          storeMapping now db
            ⟨spaceId, channelId, repoFullName, ctx.githubEntityType,
              ctx.githubEntityId, ctx.parentType, ctx.parentNumber, eventId,
              ctx.githubUpdatedAt⟩
            MESSAGE_MAPPING_EXPIRY_DAYS
  (db2, [.send channelId message threadId])

/-- `handleEdit`: no live message plus anchor flag means retroactive
create; no live message otherwise is a no-op; a live message is edited
unless the stale-update oracle rejects it, and the mapping is then
refreshed with the incoming timestamp. -/
def handleEdit (bot : BotBehavior) (now : Int) (db : Db)
    (spaceId channelId repoFullName : String) (ctx : EntityContext)
    (message : String) : Db × List ChatEffect :=
  match getMessageId now db spaceId channelId repoFullName
      ctx.githubEntityType ctx.githubEntityId with
  | none =>
    if ctx.isAnchor then
      handleCreate bot now db spaceId channelId repoFullName (some ctx) none message
    else (db, [])
  | some mid =>
    let proceed :=
      match ctx.githubUpdatedAt with
      | some u =>
        shouldUpdate db
          ⟨spaceId, channelId, repoFullName, ctx.githubEntityType, ctx.githubEntityId⟩ u
      | none => true
    if !proceed then (db, [])
    else if bot.editOk channelId mid message then
      (storeMapping now db
          ⟨spaceId, channelId, repoFullName, ctx.githubEntityType,
            ctx.githubEntityId, ctx.parentType, ctx.parentNumber, mid,
            ctx.githubUpdatedAt⟩
          MESSAGE_MAPPING_EXPIRY_DAYS,
        [.edit channelId mid message])
    else (db, [.edit channelId mid message])

/-- The thread lookup at the head of `deliver`: a non-anchor entity with a
parent pointer resolves the message id of the parent anchor as the thread. -/
def deliverThreadId (now : Int) (db : Db) (p : DeliveryParams) : Option String :=
  match p.entityContext with
  | some ctx =>
    if !ctx.isAnchor then
      match ctx.parentType, ctx.parentNumber with
      | some pt, some n =>
        getMessageId now db p.spaceId p.channelId p.repoFullName
          pt.toEntityType (toString n)
      | _, _ => none
    else none
  | none => none

/-- `MessageDeliveryService.deliver`. The surrounding `try`/`catch` is
folded into the model: a bot throw stops the handler, and `deliver`
returns the state reached at that point together with the trace of
attempted chat-boundary calls. -/
def deliver (bot : BotBehavior) (now : Int) (db : Db) (p : DeliveryParams) :
    Db × List ChatEffect :=
  let threadId := deliverThreadId now db p
  match p.action with
  | .delete =>
    match p.entityContext with
    | none => (db, [])
    | some ctx => handleDelete bot now db p.spaceId p.channelId p.repoFullName ctx
  | .edit =>
    match p.entityContext with
    | none => (db, [])
    | some ctx =>
      let message := p.formatter threadId.isSome
      if message == "" then (db, [])
      else handleEdit bot now db p.spaceId p.channelId p.repoFullName ctx message
  | .create =>
    let message := p.formatter threadId.isSome
    if message == "" then (db, [])
    else
      handleCreate bot now db p.spaceId p.channelId p.repoFullName
        p.entityContext threadId message

/-! ## Event router (`EventProcessor` from `src/github-app/event-processor.ts`)

The router reads the `event_threads` table through `ThreadService` and
talks to the chat boundary directly, one independently guarded attempt per
interested channel (`Promise.allSettled` over per-channel `try`/`catch`
blocks, linearized here as a left-to-right fold — the rows touched by each channel are
keyed by its own channel id, so the interleaving is immaterial). -/

/-- Subscription event-type tags (`ALLOWED_EVENT_TYPES` in `src/constants.ts`). -/
inductive EventType
  | pr
  | issues
  | commits
  | releases
  | ci
  | comments
  | reviews
  | branches
  | review_comments
  | stars
  | forks
deriving DecidableEq, Repr

/-- `BRANCH_FILTERABLE_EVENTS` from `src/constants.ts`. -/
def BRANCH_FILTERABLE_EVENTS : List EventType :=
  [.pr, .commits, .ci, .reviews, .review_comments, .branches]

/-- One subscribed channel as returned by
`SubscriptionService.getRepoSubscribers`. -/
structure Channel where
  spaceId : String
  channelId : String
  eventTypes : List EventType
  branchFilter : Option String
deriving DecidableEq, Repr

/-- `ThreadingContext` from `event-processor.ts`. -/
structure ThreadingContext where
  anchorType : AnchorType
  anchorNumber : Int
  isAnchor : Bool
deriving DecidableEq, Repr

/-- Primary key of the `event_threads` table. -/
structure ThreadKey where
  spaceId : String
  channelId : String
  repoFullName : String
  anchorType : AnchorType
  anchorNumber : Int
deriving DecidableEq, Repr

/-- Non-key columns of an `event_threads` row. -/
structure ThreadRow where
  threadEventId : String
  createdAt : Int
  expiresAt : Int
deriving DecidableEq, Repr

/-- The `event_threads` table. -/
abbrev ThreadDb := List (ThreadKey × ThreadRow)

def threadDbLookup : ThreadDb → ThreadKey → Option ThreadRow
  | [], _ => none
  | e :: tl, k => if e.1 == k then some e.2 else threadDbLookup tl k

/-- `ThreadService.getThreadId` (note `gte(expiresAt, new Date())`: a row
expiring exactly now still resolves, unlike `getMessageId`). -/
def getThreadId (now : Int) (tdb : ThreadDb) (k : ThreadKey) : Option String :=
  match threadDbLookup tdb k with
  | some row => if now ≤ row.expiresAt then some row.threadEventId else none
  | none => none

/-- `ThreadService.storeThread`: upsert keyed by the five-part thread key;
on conflict only `threadEventId` and `expiresAt` are updated. -/
def storeThread (now : Int) (tdb : ThreadDb) (k : ThreadKey)
    (threadEventId : String) (expiryDays : Int) : ThreadDb :=
  let expiresAt := now + expiryDays * msPerDay
  match threadDbLookup tdb k with
  | none => tdb ++ [(k, ⟨threadEventId, now, expiresAt⟩)]
  | some _ =>
    tdb.map (fun e =>
      if e.1 == k then (e.1, ⟨threadEventId, e.2.createdAt, expiresAt⟩) else e)

/-- `DEFAULT_EXPIRY_DAYS` from `src/services/thread-service.ts`. -/
def THREAD_DEFAULT_EXPIRY_DAYS : Int := 30

/-- The per-call arguments of `EventProcessor.processEvent`; the payload
only enters through `repository.full_name`, `repository.default_branch`
and the formatter closure, so those stand in for the event. -/
structure ProcessArgs where
  eventType : EventType
  repoFullName : String
  defaultBranch : String
  formatter : Bool → String
  branchContext : Option String
  threadingContext : Option ThreadingContext

/-- The channel-selection part of `processEvent`: filter by event-type
preference, then by branch filter when branch context is supplied. -/
def interestedChannels (channels : List Channel) (eventType : EventType)
    (branchContext : Option String) (defaultBranch : String) : List Channel :=
  let base := channels.filter (fun ch => ch.eventTypes.contains eventType)
  match branchContext with
  | some branch =>
    base.filter (fun ch => matchesBranchFilter branch ch.branchFilter defaultBranch)
  | none => base

/-- The per-channel thread lookup inside the fan-out of `processEvent`: only a
follow-up event (threading context present, not an anchor) resolves the
thread id of the anchor. -/
def routeThreadId (now : Int) (args : ProcessArgs) (tdb : ThreadDb)
    (ch : Channel) : Option String :=
  match args.threadingContext with
  | some tc =>
    if !tc.isAnchor then
      getThreadId now tdb
        ⟨ch.spaceId, ch.channelId, args.repoFullName, tc.anchorType, tc.anchorNumber⟩
    else none
  | none => none

/-- The body of one `sendPromises` closure: thread lookup for follow-up
events, formatting, send, and thread storage for anchors, with every bot
throw caught inside the closure. -/
def deliverToChannel (bot : BotBehavior) (now : Int) (args : ProcessArgs)
    (tdb : ThreadDb) (ch : Channel) : ThreadDb × List ChatEffect :=
  let threadId := routeThreadId now args tdb ch
  let message := args.formatter threadId.isSome
  if message == "" then (tdb, [])
  else
    let tdb2 :=
      match bot.sendEventId ch.channelId message threadId with
      | .error _ => tdb
      | .ok eventId =>
        match args.threadingContext with
        | some tc =>
          if tc.isAnchor && !(eventId == "") then
            storeThread now tdb
              ⟨ch.spaceId, ch.channelId, args.repoFullName, tc.anchorType, tc.anchorNumber⟩
              eventId THREAD_DEFAULT_EXPIRY_DAYS
          else tdb
        | none => tdb
    (tdb2, [.send ch.channelId message threadId])

/-- Fan-out over the interested channels, linearized left to right. -/
def fanout (bot : BotBehavior) (now : Int) (args : ProcessArgs) :
    ThreadDb → List Channel → ThreadDb × List ChatEffect
  | tdb, [] => (tdb, [])
  | tdb, ch :: rest =>
    let r1 := deliverToChannel bot now args tdb ch
    let r2 := fanout bot now args r1.1 rest
    (r2.1, r1.2 ++ r2.2)

/-- `EventProcessor.processEvent`: the branch-context validation is the
only throw (`Except.error`); everything after it returns normally. -/
def processEvent (bot : BotBehavior) (now : Int) (channels : List Channel)
    (tdb : ThreadDb) (args : ProcessArgs) :
    Except String (ThreadDb × List ChatEffect) :=
  if BRANCH_FILTERABLE_EVENTS.contains args.eventType && args.branchContext.isNone then
    .error "branch-filterable but no branchContext provided"
  else
    .ok (fanout bot now args tdb
      (interestedChannels channels args.eventType args.branchContext args.defaultBranch))

/-- The slice of an `issue_comment` payload that `onIssueComment` reads:
the PR-linkage marker is the presence of a non-null `pull_request` field
on the `issue` object. -/
structure IssueCommentEvent where
  repoFullName : String
  defaultBranch : String
  issueNumber : Int
  hasPullRequestLink : Bool
deriving DecidableEq, Repr

/-- `EventProcessor.onIssueComment`: tags the event `comments`, passes no
branch context, and threads it to the PR or issue anchor depending on the
PR-linkage marker; comments are never anchors. -/
def onIssueCommentArgs (fmt : Bool → String) (e : IssueCommentEvent) : ProcessArgs :=
  ⟨.comments, e.repoFullName, e.defaultBranch, fmt, none,
    some ⟨(if e.hasPullRequestLink then .pr else .issue), e.issueNumber, false⟩⟩

/-- `EventProcessor.onIssueComment` end to end. -/
def onIssueComment (bot : BotBehavior) (now : Int) (channels : List Channel)
    (tdb : ThreadDb) (fmt : Bool → String) (e : IssueCommentEvent) :
    Except String (ThreadDb × List ChatEffect) :=
  processEvent bot now channels tdb (onIssueCommentArgs fmt e)

/-- Did some send attempt on the trace target this channel? -/
def sentTo (trace : List ChatEffect) (channelId : String) : Bool :=
  trace.any (fun e =>
    match e with
    | .send c _ _ => c == channelId
    | _ => false)

/-- Number of send attempts on a trace. -/
def sendCount (trace : List ChatEffect) : Nat :=
  (trace.filter (fun e =>
    match e with
    | .send _ _ _ => true
    | _ => false)).length

/-- Number of rows a table holds for one mapping key. -/
def rowCount (db : Db) (k : MappingKey) : Nat :=
  (db.filter (fun e => e.1 == k)).length

/-! ## Store lemmas -/

theorem dbLookup_cons_pos (e : MappingKey × MappingRow) (tl : Db) (k : MappingKey)
    (he : (e.1 == k) = true) : dbLookup (e :: tl) k = some e.2 := by
  simp only [dbLookup, he, if_true]

theorem dbLookup_cons_neg (e : MappingKey × MappingRow) (tl : Db) (k : MappingKey)
    (he : (e.1 == k) = false) : dbLookup (e :: tl) k = dbLookup tl k := by
  simp only [dbLookup, he, Bool.false_eq_true, if_false]

theorem dbLookup_append_left_none {db1 db2 : Db} {k : MappingKey}
    (h : dbLookup db1 k = none) :
    dbLookup (db1 ++ db2) k = dbLookup db2 k := by
  induction db1 with
  | nil => simp
  | cons e tl ih =>
    cases he : (e.1 == k) with
    | true => rw [dbLookup_cons_pos _ _ _ he] at h; exact absurd h (by simp)
    | false =>
      rw [dbLookup_cons_neg _ _ _ he] at h
      rw [List.cons_append, dbLookup_cons_neg _ _ _ he]
      exact ih h

theorem dbLookup_singleton_self (k : MappingKey) (row : MappingRow) :
    dbLookup [(k, row)] k = some row := by
  exact dbLookup_cons_pos _ _ _ (by simp)

theorem rowCount_cons (e : MappingKey × MappingRow) (tl : Db) (k : MappingKey) :
    rowCount (e :: tl) k =
      (if (e.1 == k) = true then 1 else 0) + rowCount tl k := by
  cases he : (e.1 == k) with
  | true => simp [rowCount, List.filter_cons, he, Nat.add_comm]
  | false => simp [rowCount, List.filter_cons, he]

theorem rowCount_append (db1 db2 : Db) (k : MappingKey) :
    rowCount (db1 ++ db2) k = rowCount db1 k + rowCount db2 k := by
  simp [rowCount, List.filter_append]

theorem rowCount_singleton_self (k : MappingKey) (row : MappingRow) :
    rowCount [(k, row)] k = 1 := by
  simp [rowCount]

theorem rowCount_eq_zero_iff (db : Db) (k : MappingKey) :
    rowCount db k = 0 ↔ dbLookup db k = none := by
  induction db with
  | nil => simp [rowCount, dbLookup]
  | cons e tl ih =>
    cases he : (e.1 == k) with
    | true => simp [rowCount_cons, he, dbLookup_cons_pos _ _ _ he]
    | false => simp [rowCount_cons, he, dbLookup_cons_neg _ _ _ he, ih]

theorem dbUpdate_cons_pos {e : MappingKey × MappingRow} {tl : Db} {k : MappingKey}
    (f : MappingRow → MappingRow) (he : (e.1 == k) = true) :
    dbUpdate (e :: tl) k f = (e.1, f e.2) :: dbUpdate tl k f := by
  simp only [dbUpdate, he, if_true]

theorem dbUpdate_cons_neg {e : MappingKey × MappingRow} {tl : Db} {k : MappingKey}
    (f : MappingRow → MappingRow) (he : (e.1 == k) = false) :
    dbUpdate (e :: tl) k f = e :: dbUpdate tl k f := by
  simp only [dbUpdate, he, Bool.false_eq_true, if_false]

theorem dbLookup_dbUpdate_self {db : Db} {k : MappingKey} {r : MappingRow}
    (f : MappingRow → MappingRow) (h : dbLookup db k = some r) :
    dbLookup (dbUpdate db k f) k = some (f r) := by
  induction db with
  | nil => simp [dbLookup] at h
  | cons e tl ih =>
    cases he : (e.1 == k) with
    | true =>
      rw [dbLookup_cons_pos _ _ _ he] at h
      rw [dbUpdate_cons_pos f he, dbLookup_cons_pos (e.1, f e.2) _ _ he]
      cases h
      rfl
    | false =>
      rw [dbLookup_cons_neg _ _ _ he] at h
      rw [dbUpdate_cons_neg f he, dbLookup_cons_neg _ _ _ he]
      exact ih h

theorem rowCount_dbUpdate (db : Db) (k k' : MappingKey) (f : MappingRow → MappingRow) :
    rowCount (dbUpdate db k f) k' = rowCount db k' := by
  induction db with
  | nil => rfl
  | cons e tl ih =>
    cases he : (e.1 == k) with
    | true =>
      rw [dbUpdate_cons_pos f he, rowCount_cons, rowCount_cons, ih]
    | false =>
      rw [dbUpdate_cons_neg f he, rowCount_cons, rowCount_cons, ih]

/-- After any `storeMapping`, the key holds a row carrying the new message
id and the refreshed sliding expiry. -/
theorem dbLookup_storeMapping_key (now : Int) (db : Db) (p : StoreParams)
    (d : Int) :
    ∃ r, dbLookup (storeMapping now db p d) p.key = some r ∧
      r.townsMessageId = p.townsMessageId ∧ r.expiresAt = now + d * msPerDay := by
  cases h : dbLookup db p.key with
  | none =>
    refine ⟨⟨p.parentType, p.parentNumber, p.townsMessageId, p.githubUpdatedAt,
      now, now + d * msPerDay⟩, ?_, rfl, rfl⟩
    simp only [storeMapping, h]
    rw [dbLookup_append_left_none h, dbLookup_singleton_self]
  | some r0 =>
    have hl := dbLookup_dbUpdate_self
      (fun r => (⟨r.parentType, r.parentNumber, p.townsMessageId,
        (match p.githubUpdatedAt with
         | some t => some t
         | none => r.githubUpdatedAt),
        r.createdAt, now + d * msPerDay⟩ : MappingRow)) h
    refine ⟨⟨r0.parentType, r0.parentNumber, p.townsMessageId,
      (match p.githubUpdatedAt with
       | some t => some t
       | none => r0.githubUpdatedAt),
      r0.createdAt, now + d * msPerDay⟩, ?_, rfl, rfl⟩
    simp only [storeMapping, h]
    exact hl

theorem rowCount_storeMapping_of_none (now : Int) (db : Db) (p : StoreParams)
    (d : Int) (h : dbLookup db p.key = none) :
    rowCount (storeMapping now db p d) p.key = rowCount db p.key + 1 := by
  simp only [storeMapping, h]
  rw [rowCount_append, rowCount_singleton_self]

theorem rowCount_storeMapping_of_some (now : Int) (db : Db) (p : StoreParams)
    (d : Int) {r0 : MappingRow} (h : dbLookup db p.key = some r0) :
    rowCount (storeMapping now db p d) p.key = rowCount db p.key := by
  simp only [storeMapping, h]
  exact rowCount_dbUpdate ..

theorem sentTo_append (a b : List ChatEffect) (c : String) :
    sentTo (a ++ b) c = (sentTo a c || sentTo b c) := by
  simp [sentTo, List.any_append]

/-! ## Glob matcher lemmas -/

theorem globSegMatch_self (p : List Char) : globSegMatch p p = true := by
  induction p with
  | nil => rfl
  | cons q ps ih =>
    by_cases hq : q = '*'
    · subst hq
      have hu : globSegMatch ('*' :: ps) ('*' :: ps) =
          (('*' :: ps).tails.any fun suf => globSegMatch ps suf) := by
        simp [globSegMatch]
      rw [hu, List.any_eq_true]
      exact ⟨ps, by simp, ih⟩
    · simp [globSegMatch, hq, ih]

theorem segMatch_self (p : List Char) : segMatch p p = true := by
  cases p with
  | nil => rfl
  | cons c cs =>
    by_cases hc : c = '.'
    · subst hc
      simp [segMatch, globSegMatch_self]
    · simp [segMatch, hc, globSegMatch_self]

theorem globSegsMatch_self (l : List (List Char)) : globSegsMatch l l = true := by
  induction l with
  | nil => rfl
  | cons p ptl ih =>
    by_cases hp : p = ['*', '*']
    · subst hp
      have hu : globSegsMatch (['*', '*'] :: ptl) (['*', '*'] :: ptl) =
          ((List.range ((['*', '*'] :: ptl).length + 1)).any fun k =>
            (List.take k (['*', '*'] :: ptl)).all nonDotSeg &&
              globSegsMatch ptl (List.drop k (['*', '*'] :: ptl))) := by
        simp [globSegsMatch]
      rw [hu, List.any_eq_true]
      refine ⟨1, by simp, ?_⟩
      simp [nonDotSeg, ih]
    · simp [globSegsMatch, hp, segMatch_self, ih]

theorem isMatch_self (s : List Char) : isMatch s s = true := by
  simp [isMatch, globSegsMatch_self]

theorem exact_or_isMatch (b t : List Char) :
    (b == t || isMatch b t) = isMatch b t := by
  cases hbt : b == t with
  | false => simp
  | true =>
    have hb : b = t := by simpa using hbt
    subst hb
    simp [isMatch_self]

theorem any_exact_or_isMatch (b : List Char) (l : List (List Char)) :
    (l.any (fun t => b == t || isMatch b t)) = l.any (fun t => isMatch b t) := by
  induction l with
  | nil => rfl
  | cons h t ih => simp only [List.any_cons, exact_or_isMatch, ih]

/-! ## Claim theorems -/

/-- C5 counterexample: the slash-agnostic `*` semantics of the spec classify
`release/a/b` against the filter `release/*` as a match, but the code
(picomatch, whose `*` does not cross `/`) rejects it. -/
theorem branch_filter_slash_counterexample :
    matchesBranchFilter "release/a/b" (some "release/*") "main" = false ∧
    specMatches "release/a/b" (some "release/*") "main" = true := by decide

/-- C5 (amended): `matches(branch, null, default)` is true iff
`branch = default`; `matches(branch, "all", default)` is always true;
otherwise the filter is split on commas, each token whitespace-trimmed,
and the result is true iff the branch exactly equals a token or matches it
as a glob in which `*` matches any run of characters other than `/`
(so `/` must be matched literally and `*` does not cross it); the
function is pure with no error cases. The concrete examples of the claim hold. -/
theorem branch_filter_matcher_amended :
    (∀ b d, matchesBranchFilter b none d = (b == d)) ∧
    (∀ b d, matchesBranchFilter b (some "all") d = true) ∧
    (∀ b f d, ¬f = "all" →
      matchesBranchFilter b (some f) d =
        ((splitOnChar ',' f.toList).map trimChars).any
          (fun t => b.toList == t || isMatch b.toList t)) ∧
    (matchesBranchFilter "main" none "main" = true ∧
      matchesBranchFilter "develop" none "main" = false ∧
      matchesBranchFilter "x" (some "all") "main" = true ∧
      matchesBranchFilter "release/v2" (some "release/*") "main" = true ∧
      matchesBranchFilter "releases/v2" (some "release/*") "main" = false ∧
      matchesBranchFilter "feature/a" (some "main,feature/*") "main" = true) := by
  refine ⟨fun b d => rfl, fun b d => rfl, ?_, by decide⟩
  intro b f d hf
  have hfb : (f == "all") = false := by simpa using hf
  simp only [matchesBranchFilter, hfb, Bool.false_eq_true, if_false]
  rw [any_exact_or_isMatch]

/-- C5 witness: the general token-list form applied to the concrete filter
`"main,feature/*"`. -/
theorem branch_filter_matcher_amended_witness :
    (¬"main,feature/*" = "all") ∧
    matchesBranchFilter "feature/a" (some "main,feature/*") "main" =
      ((splitOnChar ',' ("main,feature/*").toList).map trimChars).any
        (fun t => "feature/a".toList == t || isMatch "feature/a".toList t) :=
  ⟨by decide,
    branch_filter_matcher_amended.2.2.1 "feature/a" "main,feature/*" "main" (by decide)⟩

/-- C10: a `deliver` call with action edit or delete and no entity context
returns normally as a pure no-op: no chat-boundary effect, store unchanged. -/
theorem deliver_edit_delete_without_context_is_noop (bot : BotBehavior) (now : Int)
    (db : Db) (p : DeliveryParams)
    (ha : p.action = DeliveryAction.edit ∨ p.action = DeliveryAction.delete)
    (hc : p.entityContext = none) :
    deliver bot now db p = (db, []) := by
  rcases ha with h | h <;> simp [deliver, h, hc]

/-- C10 witness. -/
theorem deliver_edit_delete_without_context_is_noop_witness :
    deliver ⟨fun _ _ _ => .ok "e", fun _ _ _ => true, fun _ _ => true⟩ 0 []
      ⟨"s", "c", "o/r", DeliveryAction.edit, none, fun _ => "m"⟩ = ([], []) :=
  deliver_edit_delete_without_context_is_noop _ 0 [] _ (Or.inl rfl) rfl

/-- C9: an expired row (`expiresAt` in the past) is invisible to
`getMessageId` even before any sweep; the sweep removes every past-expiry
row and keeps every future-expiry row. -/
theorem mapping_expiry_semantics (now : Int) (db : Db) :
    (∀ k row, dbLookup db k = some row → row.expiresAt < now →
      getMessageId now db k.spaceId k.channelId k.repoFullName
        k.githubEntityType k.githubEntityId = none) ∧
    (∀ e, e ∈ db → e.2.expiresAt < now → e ∉ (cleanupExpired now db).1) ∧
    (∀ e, e ∈ db → now < e.2.expiresAt → e ∈ (cleanupExpired now db).1) := by
  refine ⟨?_, ?_, ?_⟩
  · intro k row h hlt
    show (match dbLookup db k with
      | some row => if now < row.expiresAt then some row.townsMessageId else none
      | none => none) = none
    rw [h]
    show (if now < row.expiresAt then some row.townsMessageId else none) = none
    rw [if_neg (by omega)]
  · intro e he hlt
    simp only [cleanupExpired, List.mem_filter]
    intro hand
    have := hand.2
    simp only [Bool.not_eq_true', decide_eq_false_iff_not] at this
    omega
  · intro e he hlt
    simp only [cleanupExpired, List.mem_filter]
    refine ⟨he, ?_⟩
    simp only [Bool.not_eq_true', decide_eq_false_iff_not]
    omega

/-- C9 witness: a two-row table at `now = 50`: the row expiring at 10 is
invisible to reads and swept; the row expiring at 90 survives. -/
theorem mapping_expiry_semantics_witness :
    (dbLookup
        [(⟨"s", "c", "o/r", GithubEntityType.pr, "1"⟩, ⟨none, none, "m1", none, 0, 10⟩),
         (⟨"s", "c", "o/r", GithubEntityType.issue, "2"⟩, ⟨none, none, "m2", none, 0, 90⟩)]
        ⟨"s", "c", "o/r", GithubEntityType.pr, "1"⟩ =
        some ⟨none, none, "m1", none, 0, 10⟩) ∧
    getMessageId 50
        [(⟨"s", "c", "o/r", GithubEntityType.pr, "1"⟩, ⟨none, none, "m1", none, 0, 10⟩),
         (⟨"s", "c", "o/r", GithubEntityType.issue, "2"⟩, ⟨none, none, "m2", none, 0, 90⟩)]
        "s" "c" "o/r" GithubEntityType.pr "1" = none ∧
    (⟨"s", "c", "o/r", GithubEntityType.pr, "1"⟩, (⟨none, none, "m1", none, 0, 10⟩ : MappingRow)) ∉
      (cleanupExpired 50
        [(⟨"s", "c", "o/r", GithubEntityType.pr, "1"⟩, ⟨none, none, "m1", none, 0, 10⟩),
         (⟨"s", "c", "o/r", GithubEntityType.issue, "2"⟩, ⟨none, none, "m2", none, 0, 90⟩)]).1 ∧
    (⟨"s", "c", "o/r", GithubEntityType.issue, "2"⟩, (⟨none, none, "m2", none, 0, 90⟩ : MappingRow)) ∈
      (cleanupExpired 50
        [(⟨"s", "c", "o/r", GithubEntityType.pr, "1"⟩, ⟨none, none, "m1", none, 0, 10⟩),
         (⟨"s", "c", "o/r", GithubEntityType.issue, "2"⟩, ⟨none, none, "m2", none, 0, 90⟩)]).1 := by
  have h := mapping_expiry_semantics 50
    [(⟨"s", "c", "o/r", GithubEntityType.pr, "1"⟩, ⟨none, none, "m1", none, 0, 10⟩),
     (⟨"s", "c", "o/r", GithubEntityType.issue, "2"⟩, ⟨none, none, "m2", none, 0, 90⟩)]
  refine ⟨by decide, ?_, ?_, ?_⟩
  · exact h.1 ⟨"s", "c", "o/r", GithubEntityType.pr, "1"⟩
      ⟨none, none, "m1", none, 0, 10⟩ (by decide) (by decide)
  · exact h.2.1 _ (by simp) (by decide)
  · exact h.2.2 _ (by simp) (by decide)

/-- C3: evaluation of the issue-comment handling of the router. The code tags
every issue-comment event `comments` only, so a channel subscribed only to
`review_comments` receives nothing even when the comment carries the
PR-linkage marker (the test suite of the repo itself expects that channel to
receive it); channels subscribed to `comments` receive both issue and PR
conversation comments. -/
theorem issue_comment_routing_eval :
    onIssueComment ⟨fun _ _ _ => .ok "e1", fun _ _ _ => true, fun _ _ => true⟩ 0
        [⟨"s0", "c0", [EventType.review_comments], some "all"⟩] []
        (fun _ => "m") ⟨"o/r", "main", 123, true⟩ = .ok ([], []) ∧
    onIssueComment ⟨fun _ _ _ => .ok "e1", fun _ _ _ => true, fun _ _ => true⟩ 0
        [⟨"s1", "c1", [EventType.comments], some "all"⟩] []
        (fun _ => "m") ⟨"o/r", "main", 123, true⟩ =
      .ok ([], [ChatEffect.send "c1" "m" none]) ∧
    onIssueComment ⟨fun _ _ _ => .ok "e1", fun _ _ _ => true, fun _ _ => true⟩ 0
        [⟨"s0", "c0", [EventType.review_comments], some "all"⟩] []
        (fun _ => "m") ⟨"o/r", "main", 123, false⟩ = .ok ([], []) ∧
    onIssueComment ⟨fun _ _ _ => .ok "e1", fun _ _ _ => true, fun _ _ => true⟩ 0
        [⟨"s1", "c1", [EventType.comments], some "all"⟩] []
        (fun _ => "m") ⟨"o/r", "main", 123, false⟩ =
      .ok ([], [ChatEffect.send "c1" "m" none]) :=
  ⟨rfl, rfl, rfl, rfl⟩

/-- C8: `processEvent` throws exactly when the event-type tag is
branch-filterable and no branch context is supplied; with no branch
context and a non-filterable tag the interested channels are selected by
event-type preference only (no branch filtering). -/
theorem branch_context_validation (bot : BotBehavior) (now : Int)
    (channels : List Channel) (tdb : ThreadDb) (args : ProcessArgs) :
    ((∃ msg, processEvent bot now channels tdb args = .error msg) ↔
      (BRANCH_FILTERABLE_EVENTS.contains args.eventType = true ∧
        args.branchContext = none)) ∧
    (args.branchContext = none →
      interestedChannels channels args.eventType none args.defaultBranch =
        channels.filter (fun ch => ch.eventTypes.contains args.eventType)) := by
  constructor
  · constructor
    · rintro h
      obtain ⟨msg, h⟩ := h
      by_cases hc : (BRANCH_FILTERABLE_EVENTS.contains args.eventType &&
          args.branchContext.isNone) = true
      · obtain ⟨h1, h2⟩ : BRANCH_FILTERABLE_EVENTS.contains args.eventType = true ∧
            args.branchContext.isNone = true := by simpa using hc
        exact ⟨h1, Option.isNone_iff_eq_none.mp h2⟩
      · rw [Bool.not_eq_true] at hc
        simp only [processEvent, hc, Bool.false_eq_true, if_false] at h
        exact Except.noConfusion h
    · rintro h
      obtain ⟨h1, h2⟩ := h
      refine ⟨"branch-filterable but no branchContext provided", ?_⟩
      have h1m : args.eventType ∈ BRANCH_FILTERABLE_EVENTS := by simpa using h1
      simp [processEvent, h1, h2, h1m]
  · intro _
    rfl

/-- C8 witness: a `pr`-tagged call without branch context throws; a
`stars`-tagged call without branch context selects by preference alone. -/
theorem branch_context_validation_witness :
    ((∃ msg, processEvent ⟨fun _ _ _ => .ok "e", fun _ _ _ => true, fun _ _ => true⟩ 0
        [⟨"sp", "c1", [EventType.pr], none⟩] []
        ⟨EventType.pr, "o/r", "main", fun _ => "m", none, none⟩ = .error msg) ↔
      (BRANCH_FILTERABLE_EVENTS.contains EventType.pr = true ∧
        (none : Option String) = none)) ∧
    ((none : Option String) = none →
      interestedChannels [⟨"sp", "c1", [EventType.pr], none⟩] EventType.pr none "main" =
        [⟨"sp", "c1", [EventType.pr], none⟩].filter
          (fun ch => ch.eventTypes.contains EventType.pr)) :=
  branch_context_validation _ 0 _ [] ⟨EventType.pr, "o/r", "main", fun _ => "m", none, none⟩

/-! ## Deliver-path lemmas -/

/-- The create path under a successful send with a usable event id:
one send effect, and the mapping upserted with the returned id. -/
theorem deliver_create_spec (bot : BotBehavior) (now : Int) (db : Db)
    (p : DeliveryParams) (ctx : EntityContext) (e : String)
    (hact : p.action = DeliveryAction.create)
    (hctx : p.entityContext = some ctx)
    (hfmt : ∀ b, ¬ p.formatter b = "")
    (hsend : bot.sendEventId p.channelId
      (p.formatter (deliverThreadId now db p).isSome) (deliverThreadId now db p) = .ok e)
    (he : ¬ e = "") :
    deliver bot now db p =
      (storeMapping now db
        ⟨p.spaceId, p.channelId, p.repoFullName, ctx.githubEntityType,
          ctx.githubEntityId, ctx.parentType, ctx.parentNumber, e,
          ctx.githubUpdatedAt⟩ MESSAGE_MAPPING_EXPIRY_DAYS,
       [ChatEffect.send p.channelId
         (p.formatter (deliverThreadId now db p).isSome) (deliverThreadId now db p)]) := by
  have hmsg : (p.formatter (deliverThreadId now db p).isSome == "") = false := by
    simpa using hfmt _
  have heb : (e == "") = false := by simpa using he
  simp only [deliver, hact, hmsg, Bool.false_eq_true, if_false,
    handleCreate, hctx, hsend, heb]

/-- C1 counterexample: two identical create deliveries for the same
identity leave one mapping row (the upsert), but the chat boundary is sent
to twice — the second call is not resolved as an edit-or-noop. -/
theorem idempotent_create_counterexample :
    sendCount
        ((deliver ⟨fun _ _ _ => .ok "e1", fun _ _ _ => true, fun _ _ => true⟩ 0 []
            ⟨"s", "c", "o/r", DeliveryAction.create,
              some ⟨GithubEntityType.pr, "42", true, none, none, some 1000⟩,
              fun b => if b then "mt" else "mf"⟩).2 ++
          (deliver ⟨fun _ _ _ => .ok "e1", fun _ _ _ => true, fun _ _ => true⟩ 0
            (deliver ⟨fun _ _ _ => .ok "e1", fun _ _ _ => true, fun _ _ => true⟩ 0 []
              ⟨"s", "c", "o/r", DeliveryAction.create,
                some ⟨GithubEntityType.pr, "42", true, none, none, some 1000⟩,
                fun b => if b then "mt" else "mf"⟩).1
            ⟨"s", "c", "o/r", DeliveryAction.create,
              some ⟨GithubEntityType.pr, "42", true, none, none, some 1000⟩,
              fun b => if b then "mt" else "mf"⟩).2) = 2 ∧
    rowCount
        (deliver ⟨fun _ _ _ => .ok "e1", fun _ _ _ => true, fun _ _ => true⟩ 0
          (deliver ⟨fun _ _ _ => .ok "e1", fun _ _ _ => true, fun _ _ => true⟩ 0 []
            ⟨"s", "c", "o/r", DeliveryAction.create,
              some ⟨GithubEntityType.pr, "42", true, none, none, some 1000⟩,
              fun b => if b then "mt" else "mf"⟩).1
          ⟨"s", "c", "o/r", DeliveryAction.create,
            some ⟨GithubEntityType.pr, "42", true, none, none, some 1000⟩,
            fun b => if b then "mt" else "mf"⟩).1
        ⟨"s", "c", "o/r", GithubEntityType.pr, "42"⟩ = 1 := by
  constructor
  · rfl
  · rfl

/-- C1 (amended): two identical create deliveries for one identity leave
exactly one stored mapping row (the second call hits the conflict
branch of the upsert and replaces the row in place, never adding a duplicate), pointing
at the message id of the second send — but each call performs its own
chat-boundary send (two sends in total); send-level deduplication is
delegated upstream of `deliver`. -/
theorem idempotent_create_amended (bot : BotBehavior) (now : Int) (db : Db)
    (p : DeliveryParams) (ctx : EntityContext) (e : String)
    (hact : p.action = DeliveryAction.create)
    (hctx : p.entityContext = some ctx)
    (hfmt : ∀ b, ¬ p.formatter b = "")
    (hsend : ∀ m t, bot.sendEventId p.channelId m t = .ok e)
    (he : ¬ e = "")
    (hrow : rowCount db ⟨p.spaceId, p.channelId, p.repoFullName,
      ctx.githubEntityType, ctx.githubEntityId⟩ = 0) :
    rowCount (deliver bot now (deliver bot now db p).1 p).1
        ⟨p.spaceId, p.channelId, p.repoFullName,
          ctx.githubEntityType, ctx.githubEntityId⟩ = 1 ∧
    sendCount ((deliver bot now db p).2 ++ (deliver bot now (deliver bot now db p).1 p).2) = 2 ∧
    (∃ r, dbLookup (deliver bot now (deliver bot now db p).1 p).1
        ⟨p.spaceId, p.channelId, p.repoFullName,
          ctx.githubEntityType, ctx.githubEntityId⟩ = some r ∧
      r.townsMessageId = e) := by
  have h1 := deliver_create_spec bot now db p ctx e hact hctx hfmt (hsend _ _) he
  have e1 : (deliver bot now db p).1 =
      storeMapping now db
        ⟨p.spaceId, p.channelId, p.repoFullName, ctx.githubEntityType,
          ctx.githubEntityId, ctx.parentType, ctx.parentNumber, e,
          ctx.githubUpdatedAt⟩ MESSAGE_MAPPING_EXPIRY_DAYS := by rw [h1]
  have t1 : (deliver bot now db p).2 =
      [ChatEffect.send p.channelId
        (p.formatter (deliverThreadId now db p).isSome) (deliverThreadId now db p)] := by
    rw [h1]
  have h2 := deliver_create_spec bot now
    (storeMapping now db
      ⟨p.spaceId, p.channelId, p.repoFullName, ctx.githubEntityType,
        ctx.githubEntityId, ctx.parentType, ctx.parentNumber, e,
        ctx.githubUpdatedAt⟩ MESSAGE_MAPPING_EXPIRY_DAYS)
    p ctx e hact hctx hfmt (hsend _ _) he
  have hlook0 : dbLookup db
      (⟨p.spaceId, p.channelId, p.repoFullName, ctx.githubEntityType,
        ctx.githubEntityId, ctx.parentType, ctx.parentNumber, e,
        ctx.githubUpdatedAt⟩ : StoreParams).key = none :=
    (rowCount_eq_zero_iff db _).mp hrow
  obtain ⟨r1, hr1, hr1m, hr1e⟩ := dbLookup_storeMapping_key now db
    ⟨p.spaceId, p.channelId, p.repoFullName, ctx.githubEntityType,
      ctx.githubEntityId, ctx.parentType, ctx.parentNumber, e,
      ctx.githubUpdatedAt⟩ MESSAGE_MAPPING_EXPIRY_DAYS
  refine ⟨?_, ?_, ?_⟩
  · rw [e1, h2]
    show rowCount (storeMapping now _ _ _)
      (⟨p.spaceId, p.channelId, p.repoFullName, ctx.githubEntityType,
        ctx.githubEntityId, ctx.parentType, ctx.parentNumber, e,
        ctx.githubUpdatedAt⟩ : StoreParams).key = 1
    rw [rowCount_storeMapping_of_some _ _ _ _ hr1]
    show rowCount (storeMapping now db _ _)
      (⟨p.spaceId, p.channelId, p.repoFullName, ctx.githubEntityType,
        ctx.githubEntityId, ctx.parentType, ctx.parentNumber, e,
        ctx.githubUpdatedAt⟩ : StoreParams).key = 1
    rw [rowCount_storeMapping_of_none _ _ _ _ hlook0]
    have : rowCount db
        (⟨p.spaceId, p.channelId, p.repoFullName, ctx.githubEntityType,
          ctx.githubEntityId, ctx.parentType, ctx.parentNumber, e,
          ctx.githubUpdatedAt⟩ : StoreParams).key = 0 := hrow
    rw [this]
  · rw [t1, e1]
    have t2 : (deliver bot now
        (storeMapping now db
          ⟨p.spaceId, p.channelId, p.repoFullName, ctx.githubEntityType,
            ctx.githubEntityId, ctx.parentType, ctx.parentNumber, e,
            ctx.githubUpdatedAt⟩ MESSAGE_MAPPING_EXPIRY_DAYS) p).2 =
        [ChatEffect.send p.channelId
          (p.formatter (deliverThreadId now
            (storeMapping now db
              ⟨p.spaceId, p.channelId, p.repoFullName, ctx.githubEntityType,
                ctx.githubEntityId, ctx.parentType, ctx.parentNumber, e,
                ctx.githubUpdatedAt⟩ MESSAGE_MAPPING_EXPIRY_DAYS) p).isSome)
          (deliverThreadId now
            (storeMapping now db
              ⟨p.spaceId, p.channelId, p.repoFullName, ctx.githubEntityType,
                ctx.githubEntityId, ctx.parentType, ctx.parentNumber, e,
                ctx.githubUpdatedAt⟩ MESSAGE_MAPPING_EXPIRY_DAYS) p)] := by
      rw [h2]
    rw [t2]
    rfl
  · rw [e1, h2]
    obtain ⟨r2, hr2, hr2m, hr2e⟩ := dbLookup_storeMapping_key now
      (storeMapping now db
        ⟨p.spaceId, p.channelId, p.repoFullName, ctx.githubEntityType,
          ctx.githubEntityId, ctx.parentType, ctx.parentNumber, e,
          ctx.githubUpdatedAt⟩ MESSAGE_MAPPING_EXPIRY_DAYS)
      ⟨p.spaceId, p.channelId, p.repoFullName, ctx.githubEntityType,
        ctx.githubEntityId, ctx.parentType, ctx.parentNumber, e,
        ctx.githubUpdatedAt⟩ MESSAGE_MAPPING_EXPIRY_DAYS
    exact ⟨r2, hr2, hr2m⟩

/-- C1 witness: concrete double create with a fixed bot and formatter. -/
theorem idempotent_create_amended_witness :
    ((∀ b : Bool, ¬ (fun c => if c then "mt" else "mf") b = "") ∧ ¬ "e1" = "" ∧
      rowCount ([] : Db) ⟨"s", "c", "o/r", GithubEntityType.pr, "42"⟩ = 0) ∧
    (rowCount
        (deliver ⟨fun _ _ _ => .ok "e1", fun _ _ _ => true, fun _ _ => true⟩ 0
          (deliver ⟨fun _ _ _ => .ok "e1", fun _ _ _ => true, fun _ _ => true⟩ 0 []
            ⟨"s", "c", "o/r", DeliveryAction.create,
              some ⟨GithubEntityType.pr, "42", true, none, none, some 1000⟩,
              fun c => if c then "mt" else "mf"⟩).1
          ⟨"s", "c", "o/r", DeliveryAction.create,
            some ⟨GithubEntityType.pr, "42", true, none, none, some 1000⟩,
            fun c => if c then "mt" else "mf"⟩).1
        ⟨"s", "c", "o/r", GithubEntityType.pr, "42"⟩ = 1 ∧
      sendCount
        ((deliver ⟨fun _ _ _ => .ok "e1", fun _ _ _ => true, fun _ _ => true⟩ 0 []
            ⟨"s", "c", "o/r", DeliveryAction.create,
              some ⟨GithubEntityType.pr, "42", true, none, none, some 1000⟩,
              fun c => if c then "mt" else "mf"⟩).2 ++
          (deliver ⟨fun _ _ _ => .ok "e1", fun _ _ _ => true, fun _ _ => true⟩ 0
            (deliver ⟨fun _ _ _ => .ok "e1", fun _ _ _ => true, fun _ _ => true⟩ 0 []
              ⟨"s", "c", "o/r", DeliveryAction.create,
                some ⟨GithubEntityType.pr, "42", true, none, none, some 1000⟩,
                fun c => if c then "mt" else "mf"⟩).1
            ⟨"s", "c", "o/r", DeliveryAction.create,
              some ⟨GithubEntityType.pr, "42", true, none, none, some 1000⟩,
              fun c => if c then "mt" else "mf"⟩).2) = 2 ∧
      (∃ r, dbLookup
          (deliver ⟨fun _ _ _ => .ok "e1", fun _ _ _ => true, fun _ _ => true⟩ 0
            (deliver ⟨fun _ _ _ => .ok "e1", fun _ _ _ => true, fun _ _ => true⟩ 0 []
              ⟨"s", "c", "o/r", DeliveryAction.create,
                some ⟨GithubEntityType.pr, "42", true, none, none, some 1000⟩,
                fun c => if c then "mt" else "mf"⟩).1
            ⟨"s", "c", "o/r", DeliveryAction.create,
              some ⟨GithubEntityType.pr, "42", true, none, none, some 1000⟩,
              fun c => if c then "mt" else "mf"⟩).1
          ⟨"s", "c", "o/r", GithubEntityType.pr, "42"⟩ = some r ∧
        r.townsMessageId = "e1")) :=
  ⟨⟨by decide, by decide, rfl⟩,
    idempotent_create_amended
      ⟨fun _ _ _ => .ok "e1", fun _ _ _ => true, fun _ _ => true⟩ 0 []
      ⟨"s", "c", "o/r", DeliveryAction.create,
        some ⟨GithubEntityType.pr, "42", true, none, none, some 1000⟩,
        fun c => if c then "mt" else "mf"⟩
      ⟨GithubEntityType.pr, "42", true, none, none, some 1000⟩ "e1"
      rfl rfl (by decide) (fun _ _ => rfl) (by decide) rfl⟩

/-- The edit path on a live row when the stale-update oracle accepts:
one edit effect, and the mapping refreshed via the upsert. -/
theorem deliver_edit_proceeds (bot : BotBehavior) (now : Int) (db : Db)
    (p : DeliveryParams) (ctx : EntityContext) (row : MappingRow)
    (hact : p.action = DeliveryAction.edit)
    (hctx : p.entityContext = some ctx)
    (hlook : dbLookup db ⟨p.spaceId, p.channelId, p.repoFullName,
      ctx.githubEntityType, ctx.githubEntityId⟩ = some row)
    (hlive : now < row.expiresAt)
    (hfmt : ∀ b, ¬ p.formatter b = "")
    (hedit : ∀ m, bot.editOk p.channelId row.townsMessageId m = true)
    (hproceed : (match ctx.githubUpdatedAt with
      | some u => shouldUpdate db ⟨p.spaceId, p.channelId, p.repoFullName,
          ctx.githubEntityType, ctx.githubEntityId⟩ u
      | none => true) = true) :
    deliver bot now db p =
      (storeMapping now db
        ⟨p.spaceId, p.channelId, p.repoFullName, ctx.githubEntityType,
          ctx.githubEntityId, ctx.parentType, ctx.parentNumber,
          row.townsMessageId, ctx.githubUpdatedAt⟩ MESSAGE_MAPPING_EXPIRY_DAYS,
       [ChatEffect.edit p.channelId row.townsMessageId
         (p.formatter (deliverThreadId now db p).isSome)]) := by
  have hmsg : (p.formatter (deliverThreadId now db p).isSome == "") = false := by
    simpa using hfmt _
  have hget : getMessageId now db p.spaceId p.channelId p.repoFullName
      ctx.githubEntityType ctx.githubEntityId = some row.townsMessageId := by
    show (match dbLookup db ⟨p.spaceId, p.channelId, p.repoFullName,
        ctx.githubEntityType, ctx.githubEntityId⟩ with
      | some r => if now < r.expiresAt then some r.townsMessageId else none
      | none => none) = some row.townsMessageId
    rw [hlook]
    show (if now < row.expiresAt then some row.townsMessageId else none) = _
    rw [if_pos hlive]
  simp only [deliver, hact, hctx, hmsg, Bool.false_eq_true, if_false,
    handleEdit, hget, hproceed, Bool.not_true, hedit, if_true]

/-- The edit path on a live row when the stale-update oracle rejects:
pure no-op. -/
theorem deliver_edit_stale (bot : BotBehavior) (now : Int) (db : Db)
    (p : DeliveryParams) (ctx : EntityContext) (row : MappingRow) (u : Int)
    (hact : p.action = DeliveryAction.edit)
    (hctx : p.entityContext = some ctx)
    (hlook : dbLookup db ⟨p.spaceId, p.channelId, p.repoFullName,
      ctx.githubEntityType, ctx.githubEntityId⟩ = some row)
    (hlive : now < row.expiresAt)
    (hfmt : ∀ b, ¬ p.formatter b = "")
    (hu : ctx.githubUpdatedAt = some u)
    (hstale : shouldUpdate db ⟨p.spaceId, p.channelId, p.repoFullName,
      ctx.githubEntityType, ctx.githubEntityId⟩ u = false) :
    deliver bot now db p = (db, []) := by
  have hmsg : (p.formatter (deliverThreadId now db p).isSome == "") = false := by
    simpa using hfmt _
  have hget : getMessageId now db p.spaceId p.channelId p.repoFullName
      ctx.githubEntityType ctx.githubEntityId = some row.townsMessageId := by
    show (match dbLookup db ⟨p.spaceId, p.channelId, p.repoFullName,
        ctx.githubEntityType, ctx.githubEntityId⟩ with
      | some r => if now < r.expiresAt then some r.townsMessageId else none
      | none => none) = some row.townsMessageId
    rw [hlook]
    show (if now < row.expiresAt then some row.townsMessageId else none) = _
    rw [if_pos hlive]
  simp only [deliver, hact, hctx, hmsg, Bool.false_eq_true, if_false,
    handleEdit, hget, hu, hstale, Bool.not_false, if_true]

/-- C2: with a live mapping carrying timestamp `T`, an edit whose incoming
timestamp is not strictly newer is rejected without touching the chat
boundary or the store; a strictly newer edit calls the boundary edit and
stores the incoming timestamp (with refreshed sliding expiry); an edit
with no incoming timestamp, or against a row with no stored timestamp,
proceeds. -/
theorem stale_edit_rejection (bot : BotBehavior) (now : Int) (db : Db)
    (p : DeliveryParams) (ctx : EntityContext) (row : MappingRow)
    (hact : p.action = DeliveryAction.edit)
    (hctx : p.entityContext = some ctx)
    (hlook : dbLookup db ⟨p.spaceId, p.channelId, p.repoFullName,
      ctx.githubEntityType, ctx.githubEntityId⟩ = some row)
    (hlive : now < row.expiresAt)
    (hfmt : ∀ b, ¬ p.formatter b = "")
    (hedit : ∀ m, bot.editOk p.channelId row.townsMessageId m = true) :
    (∀ T u, row.githubUpdatedAt = some T → ctx.githubUpdatedAt = some u →
      ¬T < u → deliver bot now db p = (db, [])) ∧
    (∀ T u, row.githubUpdatedAt = some T → ctx.githubUpdatedAt = some u →
      T < u →
      (deliver bot now db p).2 =
        [ChatEffect.edit p.channelId row.townsMessageId
          (p.formatter (deliverThreadId now db p).isSome)] ∧
      dbLookup (deliver bot now db p).1
          ⟨p.spaceId, p.channelId, p.repoFullName,
            ctx.githubEntityType, ctx.githubEntityId⟩ =
        some ⟨row.parentType, row.parentNumber, row.townsMessageId, some u,
          row.createdAt, now + MESSAGE_MAPPING_EXPIRY_DAYS * msPerDay⟩) ∧
    (ctx.githubUpdatedAt = none →
      (deliver bot now db p).2 =
        [ChatEffect.edit p.channelId row.townsMessageId
          (p.formatter (deliverThreadId now db p).isSome)]) ∧
    (∀ u, row.githubUpdatedAt = none → ctx.githubUpdatedAt = some u →
      (deliver bot now db p).2 =
        [ChatEffect.edit p.channelId row.townsMessageId
          (p.formatter (deliverThreadId now db p).isSome)]) := by
  refine ⟨?_, ?_, ?_, ?_⟩
  · intro T u hT hu hnot
    have hstale : shouldUpdate db ⟨p.spaceId, p.channelId, p.repoFullName,
        ctx.githubEntityType, ctx.githubEntityId⟩ u = false := by
      show (match dbLookup db ⟨p.spaceId, p.channelId, p.repoFullName,
          ctx.githubEntityType, ctx.githubEntityId⟩ with
        | none => true
        | some r =>
          match r.githubUpdatedAt with
          | none => true
          | some existing => decide (existing < u)) = false
      rw [hlook]
      show (match row.githubUpdatedAt with
        | none => true
        | some existing => decide (existing < u)) = false
      rw [hT]
      show decide (T < u) = false
      exact decide_eq_false hnot
    exact deliver_edit_stale bot now db p ctx row u hact hctx hlook hlive hfmt hu hstale
  · intro T u hT hu hlt
    have hproceed : (match ctx.githubUpdatedAt with
        | some v => shouldUpdate db ⟨p.spaceId, p.channelId, p.repoFullName,
            ctx.githubEntityType, ctx.githubEntityId⟩ v
        | none => true) = true := by
      rw [hu]
      show shouldUpdate db ⟨p.spaceId, p.channelId, p.repoFullName,
        ctx.githubEntityType, ctx.githubEntityId⟩ u = true
      show (match dbLookup db ⟨p.spaceId, p.channelId, p.repoFullName,
          ctx.githubEntityType, ctx.githubEntityId⟩ with
        | none => true
        | some r =>
          match r.githubUpdatedAt with
          | none => true
          | some existing => decide (existing < u)) = true
      rw [hlook]
      show (match row.githubUpdatedAt with
        | none => true
        | some existing => decide (existing < u)) = true
      rw [hT]
      show decide (T < u) = true
      exact decide_eq_true hlt
    have hd := deliver_edit_proceeds bot now db p ctx row hact hctx hlook hlive hfmt hedit hproceed
    constructor
    · rw [hd]
    · rw [hd]
      have hkey : (⟨p.spaceId, p.channelId, p.repoFullName, ctx.githubEntityType,
          ctx.githubEntityId, ctx.parentType, ctx.parentNumber,
          row.townsMessageId, ctx.githubUpdatedAt⟩ : StoreParams).key =
          ⟨p.spaceId, p.channelId, p.repoFullName,
            ctx.githubEntityType, ctx.githubEntityId⟩ := rfl
      simp only [storeMapping, hkey, hlook]
      rw [dbLookup_dbUpdate_self _ hlook]
      simp only [hu]
  · intro hu
    have hproceed : (match ctx.githubUpdatedAt with
        | some v => shouldUpdate db ⟨p.spaceId, p.channelId, p.repoFullName,
            ctx.githubEntityType, ctx.githubEntityId⟩ v
        | none => true) = true := by
      rw [hu]
    have hd := deliver_edit_proceeds bot now db p ctx row hact hctx hlook hlive hfmt hedit hproceed
    rw [hd]
  · intro u hrowT hu
    have hproceed : (match ctx.githubUpdatedAt with
        | some v => shouldUpdate db ⟨p.spaceId, p.channelId, p.repoFullName,
            ctx.githubEntityType, ctx.githubEntityId⟩ v
        | none => true) = true := by
      rw [hu]
      show shouldUpdate db ⟨p.spaceId, p.channelId, p.repoFullName,
        ctx.githubEntityType, ctx.githubEntityId⟩ u = true
      show (match dbLookup db ⟨p.spaceId, p.channelId, p.repoFullName,
          ctx.githubEntityType, ctx.githubEntityId⟩ with
        | none => true
        | some r =>
          match r.githubUpdatedAt with
          | none => true
          | some existing => decide (existing < u)) = true
      rw [hlook]
      show (match row.githubUpdatedAt with
        | none => true
        | some existing => decide (existing < u)) = true
      rw [hrowT]
    have hd := deliver_edit_proceeds bot now db p ctx row hact hctx hlook hlive hfmt hedit hproceed
    rw [hd]

/-- C2 witness: a live row with timestamp 5000 at `now = 50`; an edit
carrying 4000 is a pure no-op, an edit carrying 6000 edits the message and
stores 6000 with refreshed expiry. -/
theorem stale_edit_rejection_witness :
    ((∀ b : Bool, ¬(fun c => if c then "mt" else "mf") b = "") ∧ (50 : Int) < 100 ∧
      ¬(5000 : Int) < 4000 ∧ (5000 : Int) < 6000) ∧
    deliver ⟨fun _ _ _ => .ok "e", fun _ _ _ => true, fun _ _ => true⟩ 50
        [(⟨"s", "c", "o/r", GithubEntityType.issue, "7"⟩,
          ⟨none, none, "mid", some 5000, 0, 100⟩)]
        ⟨"s", "c", "o/r", DeliveryAction.edit,
          some ⟨GithubEntityType.issue, "7", false, none, none, some 4000⟩,
          fun c => if c then "mt" else "mf"⟩ =
      ([(⟨"s", "c", "o/r", GithubEntityType.issue, "7"⟩,
          ⟨none, none, "mid", some 5000, 0, 100⟩)], []) ∧
    (deliver ⟨fun _ _ _ => .ok "e", fun _ _ _ => true, fun _ _ => true⟩ 50
        [(⟨"s", "c", "o/r", GithubEntityType.issue, "7"⟩,
          ⟨none, none, "mid", some 5000, 0, 100⟩)]
        ⟨"s", "c", "o/r", DeliveryAction.edit,
          some ⟨GithubEntityType.issue, "7", false, none, none, some 6000⟩,
          fun c => if c then "mt" else "mf"⟩).2 =
      [ChatEffect.edit "c" "mid" "mf"] ∧
    dbLookup (deliver ⟨fun _ _ _ => .ok "e", fun _ _ _ => true, fun _ _ => true⟩ 50
        [(⟨"s", "c", "o/r", GithubEntityType.issue, "7"⟩,
          ⟨none, none, "mid", some 5000, 0, 100⟩)]
        ⟨"s", "c", "o/r", DeliveryAction.edit,
          some ⟨GithubEntityType.issue, "7", false, none, none, some 6000⟩,
          fun c => if c then "mt" else "mf"⟩).1
        ⟨"s", "c", "o/r", GithubEntityType.issue, "7"⟩ =
      some ⟨none, none, "mid", some 6000, 0, 2592000050⟩ := by
  have hstale := stale_edit_rejection
    ⟨fun _ _ _ => .ok "e", fun _ _ _ => true, fun _ _ => true⟩ 50
    [(⟨"s", "c", "o/r", GithubEntityType.issue, "7"⟩,
      ⟨none, none, "mid", some 5000, 0, 100⟩)]
    ⟨"s", "c", "o/r", DeliveryAction.edit,
      some ⟨GithubEntityType.issue, "7", false, none, none, some 4000⟩,
      fun c => if c then "mt" else "mf"⟩
    ⟨GithubEntityType.issue, "7", false, none, none, some 4000⟩
    ⟨none, none, "mid", some 5000, 0, 100⟩
    rfl rfl rfl (by decide) (by decide) (fun _ => rfl)
  have hfresh := stale_edit_rejection
    ⟨fun _ _ _ => .ok "e", fun _ _ _ => true, fun _ _ => true⟩ 50
    [(⟨"s", "c", "o/r", GithubEntityType.issue, "7"⟩,
      ⟨none, none, "mid", some 5000, 0, 100⟩)]
    ⟨"s", "c", "o/r", DeliveryAction.edit,
      some ⟨GithubEntityType.issue, "7", false, none, none, some 6000⟩,
      fun c => if c then "mt" else "mf"⟩
    ⟨GithubEntityType.issue, "7", false, none, none, some 6000⟩
    ⟨none, none, "mid", some 5000, 0, 100⟩
    rfl rfl rfl (by decide) (by decide) (fun _ => rfl)
  have h2 := hfresh.2.1 5000 6000 rfl rfl (by decide)
  exact ⟨⟨by decide, by decide, by decide, by decide⟩,
    hstale.1 5000 4000 rfl rfl (by decide), h2.1, h2.2⟩

/-- C4: an edit for an anchor entity with no live mapping falls through to
the create path (a fresh chat message is sent top-level and a live mapping
row is stored pointing at it); an edit for a non-anchor entity with no
live mapping is a pure no-op. -/
theorem retroactive_anchor (bot : BotBehavior) (now : Int) (db : Db)
    (p : DeliveryParams) (ctx : EntityContext) (e : String)
    (hact : p.action = DeliveryAction.edit)
    (hctx : p.entityContext = some ctx)
    (hget : getMessageId now db p.spaceId p.channelId p.repoFullName
      ctx.githubEntityType ctx.githubEntityId = none)
    (hfmt : ∀ b, ¬ p.formatter b = "")
    (hsend : bot.sendEventId p.channelId (p.formatter false) none = .ok e)
    (he : ¬ e = "") :
    (ctx.isAnchor = true →
      deliver bot now db p =
        (storeMapping now db
          ⟨p.spaceId, p.channelId, p.repoFullName, ctx.githubEntityType,
            ctx.githubEntityId, ctx.parentType, ctx.parentNumber, e,
            ctx.githubUpdatedAt⟩ MESSAGE_MAPPING_EXPIRY_DAYS,
         [ChatEffect.send p.channelId (p.formatter false) none]) ∧
      (∃ r, dbLookup (deliver bot now db p).1
          ⟨p.spaceId, p.channelId, p.repoFullName,
            ctx.githubEntityType, ctx.githubEntityId⟩ = some r ∧
        r.townsMessageId = e ∧
        r.expiresAt = now + MESSAGE_MAPPING_EXPIRY_DAYS * msPerDay)) ∧
    (ctx.isAnchor = false → deliver bot now db p = (db, [])) := by
  constructor
  · intro ha
    have htid : deliverThreadId now db p = none := by
      simp [deliverThreadId, hctx, ha]
    have hmsg : (p.formatter (deliverThreadId now db p).isSome == "") = false := by
      simpa using hfmt _
    have heb : (e == "") = false := by simpa using he
    have hmsgF : (p.formatter false == "") = false := by simpa using hfmt false
    have hd : deliver bot now db p =
        (storeMapping now db
          ⟨p.spaceId, p.channelId, p.repoFullName, ctx.githubEntityType,
            ctx.githubEntityId, ctx.parentType, ctx.parentNumber, e,
            ctx.githubUpdatedAt⟩ MESSAGE_MAPPING_EXPIRY_DAYS,
         [ChatEffect.send p.channelId (p.formatter false) none]) := by
      simp only [deliver, hact, hctx, hmsg, Bool.false_eq_true, if_false,
        handleEdit, hget, ha, if_true, handleCreate, htid, Option.isSome_none,
        hsend, heb, hmsgF]
    refine ⟨hd, ?_⟩
    rw [hd]
    obtain ⟨r, hr, hrm, hre⟩ := dbLookup_storeMapping_key now db
      ⟨p.spaceId, p.channelId, p.repoFullName, ctx.githubEntityType,
        ctx.githubEntityId, ctx.parentType, ctx.parentNumber, e,
        ctx.githubUpdatedAt⟩ MESSAGE_MAPPING_EXPIRY_DAYS
    exact ⟨r, hr, hrm, hre⟩
  · intro ha
    have hmsg : (p.formatter (deliverThreadId now db p).isSome == "") = false := by
      simpa using hfmt _
    simp only [deliver, hact, hctx, hmsg, Bool.false_eq_true, if_false,
      handleEdit, hget, ha]

/-- C4 witness: an anchor edit for PR 9 with an empty store creates the
message and the row; the same edit for a non-anchor entity is a no-op. -/
theorem retroactive_anchor_witness :
    ((∀ b : Bool, ¬(fun c => if c then "mt" else "mf") b = "") ∧ ¬"e1" = "") ∧
    deliver ⟨fun _ _ _ => .ok "e1", fun _ _ _ => true, fun _ _ => true⟩ 0 []
        ⟨"s", "c", "o/r", DeliveryAction.edit,
          some ⟨GithubEntityType.pr, "9", true, none, none, none⟩,
          fun c => if c then "mt" else "mf"⟩ =
      ([(⟨"s", "c", "o/r", GithubEntityType.pr, "9"⟩,
          ⟨none, none, "e1", none, 0, 2592000000⟩)],
        [ChatEffect.send "c" "mf" none]) ∧
    deliver ⟨fun _ _ _ => .ok "e1", fun _ _ _ => true, fun _ _ => true⟩ 0 []
        ⟨"s", "c", "o/r", DeliveryAction.edit,
          some ⟨GithubEntityType.comment, "9", false, none, none, none⟩,
          fun c => if c then "mt" else "mf"⟩ = ([], []) := by
  have ha := retroactive_anchor
    ⟨fun _ _ _ => .ok "e1", fun _ _ _ => true, fun _ _ => true⟩ 0 []
    ⟨"s", "c", "o/r", DeliveryAction.edit,
      some ⟨GithubEntityType.pr, "9", true, none, none, none⟩,
      fun c => if c then "mt" else "mf"⟩
    ⟨GithubEntityType.pr, "9", true, none, none, none⟩ "e1"
    rfl rfl rfl (by decide) rfl (by decide)
  have hb := retroactive_anchor
    ⟨fun _ _ _ => .ok "e1", fun _ _ _ => true, fun _ _ => true⟩ 0 []
    ⟨"s", "c", "o/r", DeliveryAction.edit,
      some ⟨GithubEntityType.comment, "9", false, none, none, none⟩,
      fun c => if c then "mt" else "mf"⟩
    ⟨GithubEntityType.comment, "9", false, none, none, none⟩ "e1"
    rfl rfl rfl (by decide) rfl (by decide)
  exact ⟨⟨by decide, by decide⟩, (ha.1 rfl).1, hb.2 rfl⟩

/-- C6: a follower create whose parent anchor has no live mapping is still
delivered, top-level, with the compact-reply flag off; with a live parent
mapping the message id of the anchor is passed as the thread id and the
formatter sees the reply flag on. -/
theorem threading_fallback (bot : BotBehavior) (now : Int) (db : Db)
    (p : DeliveryParams) (ctx : EntityContext) (pt : AnchorType) (n : Int)
    (hact : p.action = DeliveryAction.create)
    (hctx : p.entityContext = some ctx)
    (hfoll : ctx.isAnchor = false)
    (hpt : ctx.parentType = some pt)
    (hpn : ctx.parentNumber = some n)
    (hfmt : ∀ b, ¬ p.formatter b = "") :
    (getMessageId now db p.spaceId p.channelId p.repoFullName
        pt.toEntityType (toString n) = none →
      (deliver bot now db p).2 =
        [ChatEffect.send p.channelId (p.formatter false) none]) ∧
    (∀ tid, getMessageId now db p.spaceId p.channelId p.repoFullName
        pt.toEntityType (toString n) = some tid →
      (deliver bot now db p).2 =
        [ChatEffect.send p.channelId (p.formatter true) (some tid)]) := by
  have htid : deliverThreadId now db p =
      getMessageId now db p.spaceId p.channelId p.repoFullName
        pt.toEntityType (toString n) := by
    simp [deliverThreadId, hctx, hfoll, hpt, hpn]
  have hmsg : (p.formatter (deliverThreadId now db p).isSome == "") = false := by
    simpa using hfmt _
  have hmsgF : (p.formatter false == "") = false := by simpa using hfmt false
  have hmsgT : (p.formatter true == "") = false := by simpa using hfmt true
  constructor
  · intro hnone
    simp only [deliver, hact, hmsg, Bool.false_eq_true, if_false, handleCreate,
      htid, hnone, Option.isSome_none, hmsgF]
  · intro tid hsome
    simp only [deliver, hact, hmsg, Bool.false_eq_true, if_false, handleCreate,
      htid, hsome, Option.isSome_some, hmsgT]

/-- C6 witness: a review following PR 9: with an empty store it goes out
top-level with the compact flag off; with the live row of the anchor its
message id is the thread and the compact flag is on. -/
theorem threading_fallback_witness :
    (∀ b : Bool, ¬(fun c => if c then "mt" else "mf") b = "") ∧
    (deliver ⟨fun _ _ _ => .ok "e2", fun _ _ _ => true, fun _ _ => true⟩ 50 []
        ⟨"s", "c", "o/r", DeliveryAction.create,
          some ⟨GithubEntityType.review, "77", false, some AnchorType.pr, some 9, none⟩,
          fun c => if c then "mt" else "mf"⟩).2 =
      [ChatEffect.send "c" "mf" none] ∧
    (deliver ⟨fun _ _ _ => .ok "e2", fun _ _ _ => true, fun _ _ => true⟩ 50
        [(⟨"s", "c", "o/r", GithubEntityType.pr, "9"⟩,
          ⟨none, none, "anchor-msg", none, 0, 100⟩)]
        ⟨"s", "c", "o/r", DeliveryAction.create,
          some ⟨GithubEntityType.review, "77", false, some AnchorType.pr, some 9, none⟩,
          fun c => if c then "mt" else "mf"⟩).2 =
      [ChatEffect.send "c" "mt" (some "anchor-msg")] := by
  have h1 := threading_fallback
    ⟨fun _ _ _ => .ok "e2", fun _ _ _ => true, fun _ _ => true⟩ 50 []
    ⟨"s", "c", "o/r", DeliveryAction.create,
      some ⟨GithubEntityType.review, "77", false, some AnchorType.pr, some 9, none⟩,
      fun c => if c then "mt" else "mf"⟩
    ⟨GithubEntityType.review, "77", false, some AnchorType.pr, some 9, none⟩
    AnchorType.pr 9 rfl rfl rfl rfl rfl (by decide)
  have h2 := threading_fallback
    ⟨fun _ _ _ => .ok "e2", fun _ _ _ => true, fun _ _ => true⟩ 50
    [(⟨"s", "c", "o/r", GithubEntityType.pr, "9"⟩,
      ⟨none, none, "anchor-msg", none, 0, 100⟩)]
    ⟨"s", "c", "o/r", DeliveryAction.create,
      some ⟨GithubEntityType.review, "77", false, some AnchorType.pr, some 9, none⟩,
      fun c => if c then "mt" else "mf"⟩
    ⟨GithubEntityType.review, "77", false, some AnchorType.pr, some 9, none⟩
    AnchorType.pr 9 rfl rfl rfl rfl rfl (by decide)
  exact ⟨by decide, h1.1 rfl, h2.2 "anchor-msg" rfl⟩

/-- With a never-empty formatter, one channel attempt always records
exactly one send on the trace (whether or not the bot throws on it). -/
theorem deliverToChannel_trace (bot : BotBehavior) (now : Int)
    (args : ProcessArgs) (tdb : ThreadDb) (ch : Channel)
    (hfmt : ∀ b, ¬ args.formatter b = "") :
    (deliverToChannel bot now args tdb ch).2 =
      [ChatEffect.send ch.channelId
        (args.formatter (routeThreadId now args tdb ch).isSome)
        (routeThreadId now args tdb ch)] := by
  have hmsg : (args.formatter (routeThreadId now args tdb ch).isSome == "") = false := by
    simpa using hfmt _
  simp only [deliverToChannel, hmsg, Bool.false_eq_true, if_false]

theorem fanout_cons (bot : BotBehavior) (now : Int) (args : ProcessArgs)
    (tdb : ThreadDb) (c : Channel) (rest : List Channel) :
    (fanout bot now args tdb (c :: rest)).2 =
      (deliverToChannel bot now args tdb c).2 ++
        (fanout bot now args (deliverToChannel bot now args tdb c).1 rest).2 := rfl

/-- Independence of the fan-out: every member of the channel list gets its
own send attempt, whatever the bot does on the other channels. -/
theorem fanout_sends (bot : BotBehavior) (now : Int) (args : ProcessArgs)
    (hfmt : ∀ b, ¬ args.formatter b = "") :
    ∀ chs tdb ch, ch ∈ chs →
      sentTo (fanout bot now args tdb chs).2 ch.channelId = true := by
  intro chs
  induction chs with
  | nil =>
    intro tdb ch h
    cases h
  | cons c rest ih =>
    intro tdb ch h
    rw [fanout_cons, sentTo_append]
    rcases List.mem_cons.mp h with hh | hh
    · subst hh
      rw [deliverToChannel_trace bot now args tdb ch hfmt]
      simp [sentTo]
    · rw [ih _ _ hh]
      simp

/-- C7: whenever the branch-context validation passes and the formatter is
never empty, `processEvent` returns normally (`.ok`; no exception escapes
the router call) and every interested channel receives its own send
attempt on the chat boundary, regardless of which channels the bot throws
for. -/
theorem fanout_isolation (bot : BotBehavior) (now : Int)
    (channels : List Channel) (tdb : ThreadDb) (args : ProcessArgs)
    (hval : BRANCH_FILTERABLE_EVENTS.contains args.eventType = true →
      args.branchContext.isSome = true)
    (hfmt : ∀ b, ¬ args.formatter b = "") :
    processEvent bot now channels tdb args =
      .ok (fanout bot now args tdb
        (interestedChannels channels args.eventType args.branchContext
          args.defaultBranch)) ∧
    ∀ ch ∈ interestedChannels channels args.eventType args.branchContext
        args.defaultBranch,
      sentTo (fanout bot now args tdb
        (interestedChannels channels args.eventType args.branchContext
          args.defaultBranch)).2 ch.channelId = true := by
  have hc : (BRANCH_FILTERABLE_EVENTS.contains args.eventType &&
      args.branchContext.isNone) = false := by
    cases hx : BRANCH_FILTERABLE_EVENTS.contains args.eventType with
    | false => simp
    | true =>
      have hs := hval hx
      cases hb : args.branchContext with
      | none => rw [hb] at hs; exact absurd hs (by simp)
      | some b => simp [hb]
  constructor
  · simp only [processEvent, hc, Bool.false_eq_true, if_false]
  · intro ch h
    exact fanout_sends bot now args hfmt _ tdb ch h

/-- C7 witness: three star-subscribed channels with a bot that throws only
for `c2`; the router returns normally and all three channels (including
`c1` and `c3`) get their send attempts. -/
theorem fanout_isolation_witness :
    ((BRANCH_FILTERABLE_EVENTS.contains EventType.stars = true →
        (none : Option String).isSome = true) ∧
      (∀ b : Bool, ¬(fun _ => "m") b = "")) ∧
    (processEvent
        ⟨fun c _ _ => if c == "c2" then .error () else .ok "e",
          fun _ _ _ => true, fun _ _ => true⟩ 0
        [⟨"sp", "c1", [EventType.stars], none⟩,
          ⟨"sp", "c2", [EventType.stars], none⟩,
          ⟨"sp", "c3", [EventType.stars], none⟩] []
        ⟨EventType.stars, "o/r", "main", fun _ => "m", none, none⟩ =
      .ok (fanout
        ⟨fun c _ _ => if c == "c2" then .error () else .ok "e",
          fun _ _ _ => true, fun _ _ => true⟩ 0
        ⟨EventType.stars, "o/r", "main", fun _ => "m", none, none⟩ []
        (interestedChannels
          [⟨"sp", "c1", [EventType.stars], none⟩,
            ⟨"sp", "c2", [EventType.stars], none⟩,
            ⟨"sp", "c3", [EventType.stars], none⟩]
          EventType.stars none "main")) ∧
      ∀ ch ∈ interestedChannels
          [⟨"sp", "c1", [EventType.stars], none⟩,
            ⟨"sp", "c2", [EventType.stars], none⟩,
            ⟨"sp", "c3", [EventType.stars], none⟩]
          EventType.stars none "main",
        sentTo (fanout
          ⟨fun c _ _ => if c == "c2" then .error () else .ok "e",
            fun _ _ _ => true, fun _ _ => true⟩ 0
          ⟨EventType.stars, "o/r", "main", fun _ => "m", none, none⟩ []
          (interestedChannels
            [⟨"sp", "c1", [EventType.stars], none⟩,
              ⟨"sp", "c2", [EventType.stars], none⟩,
              ⟨"sp", "c3", [EventType.stars], none⟩]
            EventType.stars none "main")).2 ch.channelId = true) :=
  ⟨⟨by decide, by decide⟩,
    fanout_isolation
      ⟨fun c _ _ => if c == "c2" then .error () else .ok "e",
        fun _ _ _ => true, fun _ _ => true⟩ 0
      [⟨"sp", "c1", [EventType.stars], none⟩,
        ⟨"sp", "c2", [EventType.stars], none⟩,
        ⟨"sp", "c3", [EventType.stars], none⟩] []
      ⟨EventType.stars, "o/r", "main", fun _ => "m", none, none⟩
      (by decide) (by decide)⟩

end GithubBot
